import Mathlib

/-!
Shallow embedding of the CodeSpark provider-abstraction layer
(`ai_service.py`, vault and analysis glue from `routes.py`), together with
theorems settling the specification claims about it.

Conventions:
* Python `dict`s decoded from JSON are modelled by the inductive `Json`.
* Python exceptions are modelled by the inductive `PyErr`; a function that
  can raise returns `Except PyErr α`.
* The standard-library `json.loads` is modelled by a small executable
  recursive-descent parser (`parseJson`) covering the JSON fragment the
  claims exercise (objects, arrays, escape-free strings, integer numerals,
  booleans, null); `json.dumps` on a string-to-string dict is modelled by
  `dumps_str_map`.
* Network transports and SDK clients are external collaborators and are
  passed in as function parameters; their documented contracts appear as
  hypotheses where a claim depends on them.
-/

namespace CodeSpark

/-- JSON values as returned by `json.loads`.  Numbers are modelled as
integers: every numeric literal the claims touch (scores, metrics) is
integral. -/
inductive Json where
  | null
  | bool (b : Bool)
  | num (n : Int)
  | str (s : String)
  | arr (xs : List Json)
  | obj (fields : List (String × Json))

/-- Python exceptions relevant to this layer.  `jsonDecodeError` models
`json.JSONDecodeError` (which carries the offending document in `.doc`);
`genericException` models a bare `Exception(msg)`.  `transportError` is
NOT produced by any embedded source function: it formalises the spec's
`TransportError{status, body}` taxonomy entry, so that claims phrased in
terms of it can be stated and compared against the code's behaviour. -/
inductive PyErr where
  | jsonDecodeError (doc : String)
  | genericException (msg : String)
  | keyError (key : String)
  | typeError (msg : String)
  | valueError (msg : String)
  | connectionError (msg : String)
  | sdkError (msg : String)
  | transportError (status : Nat) (body : String)
deriving DecidableEq, Repr

/-! ## A small model of `json.loads` / `json.dumps` -/

/-- JSON insignificant whitespace. -/
def isJsonWs (c : Char) : Bool :=
  c = ' ' || c = '\n' || c = '\t' || c = '\r'

/-- Drop leading JSON whitespace. -/
def skipWs : List Char → List Char
  | c :: rest => if isJsonWs c then skipWs rest else c :: rest
  | [] => []

/-- Parse the remainder of a string literal after the opening quote.
Escape sequences are outside the modelled fragment. -/
def parseStrChars : List Char → List Char → Option (String × List Char)
  | [], _ => none
  | c :: rest, acc =>
    if c = '"' then some (String.mk acc.reverse, rest)
    else if c = '\\' then none
    else parseStrChars rest (c :: acc)

/-- Take a maximal run of decimal digits. -/
def takeDigits : List Char → (List Char × List Char)
  | c :: rest =>
    if c.isDigit then
      let p := takeDigits rest
      (c :: p.1, p.2)
    else ([], c :: rest)
  | [] => ([], [])

/-- Decimal digits to a natural number. -/
def digitsToNat (ds : List Char) : Nat :=
  ds.foldl (fun a c => a * 10 + (c.toNat - '0'.toNat)) 0

mutual

/-- Parse one JSON value; fuel bounds the recursion depth. -/
def parseValue : Nat → List Char → Option (Json × List Char)
  | 0, _ => none
  | fuel + 1, s =>
    match skipWs s with
    | '{' :: rest =>
      match skipWs rest with
      | '}' :: r2 => some (.obj [], r2)
      | r2 =>
        match parseMembers fuel r2 with
        | some p => some (.obj p.1, p.2)
        | none => none
    | '[' :: rest =>
      match skipWs rest with
      | ']' :: r2 => some (.arr [], r2)
      | r2 =>
        match parseElems fuel r2 with
        | some p => some (.arr p.1, p.2)
        | none => none
    | '"' :: rest =>
      match parseStrChars rest [] with
      | some p => some (.str p.1, p.2)
      | none => none
    | 't' :: 'r' :: 'u' :: 'e' :: rest => some (.bool true, rest)
    | 'f' :: 'a' :: 'l' :: 's' :: 'e' :: rest => some (.bool false, rest)
    | 'n' :: 'u' :: 'l' :: 'l' :: rest => some (.null, rest)
    | '-' :: rest =>
      match takeDigits rest with
      | ([], _) => none
      | (ds, r) => some (.num (-(digitsToNat ds : Int)), r)
    | s' =>
      match takeDigits s' with
      | ([], _) => none
      | (ds, r) => some (.num (digitsToNat ds : Int), r)

/-- Parse the members of a non-empty JSON object, including the closing
brace. -/
def parseMembers : Nat → List Char → Option (List (String × Json) × List Char)
  | 0, _ => none
  | fuel + 1, s =>
    match skipWs s with
    | '"' :: rest =>
      match parseStrChars rest [] with
      | none => none
      | some (k, r1) =>
        match skipWs r1 with
        | ':' :: r2 =>
          match parseValue fuel r2 with
          | none => none
          | some (v, r3) =>
            match skipWs r3 with
            | ',' :: r4 =>
              match parseMembers fuel r4 with
              | some p => some ((k, v) :: p.1, p.2)
              | none => none
            | '}' :: r4 => some ([(k, v)], r4)
            | _ => none
        | _ => none
    | _ => none

/-- Parse the elements of a non-empty JSON array, including the closing
bracket. -/
def parseElems : Nat → List Char → Option (List Json × List Char)
  | 0, _ => none
  | fuel + 1, s =>
    match parseValue fuel s with
    | none => none
    | some (v, r) =>
      match skipWs r with
      | ',' :: r2 =>
        match parseElems fuel r2 with
        | some p => some (v :: p.1, p.2)
        | none => none
      | ']' :: r2 => some ([v], r2)
      | _ => none

end

/-- Model of `json.loads` restricted to decoding success/failure: `some`
on a well-formed document (fully consumed up to trailing whitespace),
`none` otherwise. -/
def parseJson (s : String) : Option Json :=
  match parseValue (s.data.length + 1) s.data with
  | some (j, rest) => if skipWs rest = [] then some j else none
  | none => none

/-- `json.loads` as the raising Python function: on failure it raises
`json.JSONDecodeError`, whose `.doc` attribute carries the raw text. -/
def json_loads (s : String) : Except PyErr Json :=
  match parseJson s with
  | some j => .ok j
  | none => .error (.jsonDecodeError s)

/-- `json.dumps` on a string-to-string dict (default separators). -/
def dumps_str_map (m : List (String × String)) : String :=
  "\x7b" ++ String.intercalate ", "
      (m.map (fun p => "\"" ++ p.1 ++ "\": \"" ++ p.2 ++ "\"")) ++ "\x7d"

/-- The `Json` value `json.loads` yields for a serialized string-to-string
dict. -/
def Json.ofStrMap (m : List (String × String)) : Json :=
  .obj (m.map (fun p => (p.1, .str p.2)))

/-- Python `d[k]` on a decoded JSON value: `KeyError` on a missing key,
`TypeError` when the value is not an object. -/
def Json.getKey : Json → String → Except PyErr Json
  | .obj fs, k =>
    match fs.lookup k with
    | some v => .ok v
    | none => .error (.keyError k)
  | _, _ => .error (.typeError "value is not subscriptable by string")

/-- Python `d[i]` on a decoded JSON value. -/
def Json.getIdx : Json → Nat → Except PyErr Json
  | .arr xs, i =>
    match xs.get? i with
    | some v => .ok v
    | none => .error (.keyError "list index out of range")
  | _, _ => .error (.typeError "value is not subscriptable by index")

/-- Python `d.get(k, default)` on a decoded JSON object (used by
`routes.analyze_file` to read `quality_score`). -/
def Json.dictGet (j : Json) (k : String) (default : Json) : Json :=
  match j with
  | .obj fs => (fs.lookup k).getD default
  | _ => default

/-! ## `detect_language` (`ai_service.py:1102-1143`, duplicated verbatim in
`openai_service.py:158-199`) -/

/-- Last index of `c` in `l`, or `-1` — Python `str.rfind`. -/
def pyRfind (l : List Char) (c : Char) : Int :=
  match l.reverse.findIdx? (· = c) with
  | some i => (l.length - 1 - i : Nat)
  | none => -1

/-- The extension component of `os.path.splitext` (POSIX): the suffix from
the last dot, provided that dot lies after the last path separator and is
preceded, within the basename, by at least one non-dot character. -/
def splitext_ext (p : List Char) : List Char :=
  let sepIndex := pyRfind p '/'
  let dotIndex := pyRfind p '.'
  if dotIndex > sepIndex then
    if (List.range p.length).any (fun k =>
        decide (sepIndex + 1 ≤ (k : Int)) && decide ((k : Int) < dotIndex)
          && !(p.getD k '.' = '.')) then
      p.drop dotIndex.toNat
    else []
  else []

/-- Python `needle in hay` on strings. -/
def strContains (hay needle : String) : Bool :=
  hay.data.tails.any (fun t => needle.data.isPrefixOf t)

/-- The fixed extension table of `detect_language`. -/
def extension_map : List (String × String) :=
  [(".py", "python"), (".js", "javascript"), (".ts", "typescript"),
   (".java", "java"), (".cpp", "cpp"), (".c", "c"), (".cs", "csharp"),
   (".php", "php"), (".rb", "ruby"), (".go", "go"), (".rs", "rust"),
   (".swift", "swift"), (".kt", "kotlin"), (".scala", "scala"),
   (".sh", "bash"), (".sql", "sql"), (".html", "html"), (".css", "css"),
   (".json", "json"), (".xml", "xml"), (".yaml", "yaml"), (".yml", "yaml")]

/-- The ordered content heuristics applied when the extension lookup left
`"text"` and the content is non-empty; first match wins. -/
def contentHeuristic (code_content : String) : String :=
  if strContains code_content "def " && strContains code_content "import " then
    "python"
  else if strContains code_content "function "
      && (strContains code_content "var " || strContains code_content "let ") then
    "javascript"
  else if strContains code_content "public class "
      && strContains code_content "public static void main" then
    "java"
  else "text"

/-- `detect_language(filename, code_content)`. -/
def detect_language (filename code_content : String) : String :=
  let ext := String.mk (splitext_ext (filename.data.map Char.toLower))
  let detected_language := (extension_map.lookup ext).getD "text"
  if detected_language = "text" && !(code_content = "") then
    contentHeuristic code_content
  else detected_language

/-! ## Provider catalog (`AI_PROVIDERS`, `ai_service.py:26-162`) -/

/-- One catalog entry: display name, model-id to display-label mapping,
credential environment-variable name, required client library. -/
structure ProviderInfo where
  name : String
  models : List (String × String)
  api_key_env : String
  requires : List String
deriving DecidableEq, Repr

/-- The static provider registry. -/
def AI_PROVIDERS : List (String × ProviderInfo) :=
  [("openai",
    { name := "OpenAI",
      models :=
        [("gpt-4o", "GPT-4o (Latest)"), ("gpt-4o-mini", "GPT-4o Mini"),
         ("gpt-4-turbo", "GPT-4 Turbo"),
         ("gpt-4-turbo-preview", "GPT-4 Turbo Preview"), ("gpt-4", "GPT-4"),
         ("gpt-4-0613", "GPT-4 (June 2023)"), ("gpt-3.5-turbo", "GPT-3.5 Turbo"),
         ("gpt-3.5-turbo-16k", "GPT-3.5 Turbo 16K"),
         ("gpt-3.5-turbo-1106", "GPT-3.5 Turbo (Nov 2023)")],
      api_key_env := "OPENAI_API_KEY", requires := ["openai"] }),
   ("anthropic",
    { name := "Anthropic Claude",
      models :=
        [("claude-sonnet-4-20250514", "Claude 4.0 Sonnet (Latest)"),
         ("claude-3-7-sonnet-20250219", "Claude 3.7 Sonnet"),
         ("claude-3-5-sonnet-20241022", "Claude 3.5 Sonnet"),
         ("claude-3-5-haiku-20241022", "Claude 3.5 Haiku"),
         ("claude-3-opus-20240229", "Claude 3 Opus"),
         ("claude-3-sonnet-20240229", "Claude 3 Sonnet"),
         ("claude-3-haiku-20240307", "Claude 3 Haiku"),
         ("claude-2.1", "Claude 2.1"), ("claude-2.0", "Claude 2.0"),
         ("claude-instant-1.2", "Claude Instant 1.2")],
      api_key_env := "ANTHROPIC_API_KEY", requires := ["anthropic"] }),
   ("gemini",
    { name := "Google Gemini",
      models :=
        [("gemini-2.5-pro", "Gemini 2.5 Pro (Latest)"),
         ("gemini-2.5-flash", "Gemini 2.5 Flash"),
         ("gemini-1.5-pro", "Gemini 1.5 Pro"),
         ("gemini-1.5-flash", "Gemini 1.5 Flash"),
         ("gemini-1.0-pro", "Gemini 1.0 Pro"), ("gemini-pro", "Gemini Pro"),
         ("gemini-pro-vision", "Gemini Pro Vision")],
      api_key_env := "GEMINI_API_KEY", requires := ["google-genai"] }),
   ("xai",
    { name := "xAI Grok",
      models :=
        [("grok-2-vision-1212", "Grok 2 Vision (Latest)"),
         ("grok-2-1212", "Grok 2"), ("grok-vision-beta", "Grok Vision Beta"),
         ("grok-beta", "Grok Beta"), ("grok-1", "Grok 1")],
      api_key_env := "XAI_API_KEY", requires := ["openai"] }),
   ("perplexity",
    { name := "Perplexity",
      models :=
        [("llama-3.1-sonar-huge-128k-online", "Llama 3.1 Sonar Huge (Online)"),
         ("llama-3.1-sonar-large-128k-online", "Llama 3.1 Sonar Large (Online)"),
         ("llama-3.1-sonar-small-128k-online", "Llama 3.1 Sonar Small (Online)"),
         ("llama-3.1-sonar-large-128k-chat", "Llama 3.1 Sonar Large (Chat)"),
         ("llama-3.1-sonar-small-128k-chat", "Llama 3.1 Sonar Small (Chat)"),
         ("llama-3.1-8b-instruct", "Llama 3.1 8B Instruct"),
         ("llama-3.1-70b-instruct", "Llama 3.1 70B Instruct"),
         ("codellama-34b-instruct", "CodeLlama 34B Instruct"),
         ("codellama-70b-instruct", "CodeLlama 70B Instruct"),
         ("mistral-7b-instruct", "Mistral 7B Instruct"),
         ("mixtral-8x7b-instruct", "Mixtral 8x7B Instruct")],
      api_key_env := "PERPLEXITY_API_KEY", requires := ["requests"] }),
   ("cohere",
    { name := "Cohere",
      models :=
        [("command-r-plus", "Command R+ (Latest)"), ("command-r", "Command R"),
         ("command", "Command"), ("command-nightly", "Command Nightly"),
         ("command-light", "Command Light"),
         ("command-light-nightly", "Command Light Nightly")],
      api_key_env := "COHERE_API_KEY", requires := ["requests"] }),
   ("mistral",
    { name := "Mistral AI",
      models :=
        [("mistral-large-latest", "Mistral Large (Latest)"),
         ("mistral-medium-latest", "Mistral Medium"),
         ("mistral-small-latest", "Mistral Small"),
         ("open-mistral-7b", "Open Mistral 7B"),
         ("open-mixtral-8x7b", "Open Mixtral 8x7B"),
         ("open-mixtral-8x22b", "Open Mixtral 8x22B"),
         ("codestral-latest", "Codestral (Code)"),
         ("mistral-embed", "Mistral Embed")],
      api_key_env := "MISTRAL_API_KEY", requires := ["requests"] }),
   ("huggingface",
    { name := "HuggingFace",
      models :=
        [("meta-llama/Llama-2-70b-chat-hf", "Llama 2 70B Chat"),
         ("meta-llama/Llama-2-13b-chat-hf", "Llama 2 13B Chat"),
         ("meta-llama/Llama-2-7b-chat-hf", "Llama 2 7B Chat"),
         ("codellama/CodeLlama-34b-Instruct-hf", "CodeLlama 34B Instruct"),
         ("microsoft/DialoGPT-large", "DialoGPT Large"),
         ("microsoft/CodeBERT-base", "CodeBERT Base"),
         ("Salesforce/codegen-16B-mono", "CodeGen 16B"),
         ("bigcode/starcoder", "StarCoder")],
      api_key_env := "HUGGINGFACE_API_KEY", requires := ["requests"] }),
   ("together",
    { name := "Together AI",
      models :=
        [("meta-llama/Llama-2-70b-chat-hf", "Llama 2 70B Chat"),
         ("meta-llama/Llama-2-13b-chat-hf", "Llama 2 13B Chat"),
         ("meta-llama/Llama-2-7b-chat-hf", "Llama 2 7B Chat"),
         ("codellama/CodeLlama-34b-Instruct-hf", "CodeLlama 34B Instruct"),
         ("codellama/CodeLlama-13b-Instruct-hf", "CodeLlama 13B Instruct"),
         ("codellama/CodeLlama-7b-Instruct-hf", "CodeLlama 7B Instruct"),
         ("WizardLM/WizardCoder-Python-34B-V1.0", "WizardCoder Python 34B"),
         ("Phind/Phind-CodeLlama-34B-v2", "Phind CodeLlama 34B v2")],
      api_key_env := "TOGETHER_API_KEY", requires := ["requests"] })]

/-- `get_available_providers()`. -/
def get_available_providers : List (String × ProviderInfo) := AI_PROVIDERS

/-! ## Adapter data model -/

/-- The three operations of the capability interface. -/
inductive OpKind where
  | quality
  | tests
  | suggestions
deriving DecidableEq, Repr

/-- The data a `_build_*_prompt` template embeds: the operation's fixed
template, the language tag, and the verbatim code text.  The literal
template wording is not transcribed here — no claim refers to it; the
template also spells out the expected JSON schema. -/
structure PromptText where
  op : OpKind
  language : String
  code : String
deriving DecidableEq, Repr

/-- One `client.chat.completions.create` call as issued by
`OpenAIProvider` and `XAIProvider` (OpenAI-compatible SDK). -/
structure ChatCompletionsRequest where
  model : String
  systemContent : String
  userPrompt : PromptText
  response_format_json_object : Bool
  temperature : Option ℚ
deriving DecidableEq, Repr

/-- The part of the SDK reply the adapters read:
`response.choices[0].message.content`. -/
structure ChatCompletionsResponse where
  content : String
deriving DecidableEq, Repr

/-- One `client.messages.create` call as issued by `AnthropicProvider`.
`temperature` is an optional SDK parameter; the adapter never sets it. -/
structure AnthropicMessagesRequest where
  model : String
  max_tokens : Nat
  userPrompt : PromptText
  system : String
  temperature : Option ℚ
deriving DecidableEq, Repr

/-- The part of the reply the adapter reads: `response.content[0].text`. -/
structure AnthropicMessagesResponse where
  content0_text : String
deriving DecidableEq, Repr

/-- One `client.models.generate_content` call as issued by
`GeminiProvider`; the config carries the response MIME type and
temperature. -/
structure GeminiGenerateRequest where
  model : String
  contents : PromptText
  response_mime_type : String
  temperature : Option ℚ
deriving DecidableEq, Repr

/-- The part of the reply the adapter reads: `response.text`. -/
structure GeminiGenerateResponse where
  text : String
deriving DecidableEq, Repr

/-- One `requests.post` of a chat-completions-shaped JSON body, as built
by `PerplexityProvider._make_request` and `HTTPProvider._make_request`.
`api_key` is carried in the `Authorization: Bearer` header. -/
structure HttpPostRequest where
  url : String
  api_key : String
  model : String
  system_message : String
  user_content : PromptText
  temperature : Option ℚ
  stream : Option Bool
  max_tokens : Option Nat
  timeout : Option Nat
  extra_headers : List (String × String)
deriving DecidableEq, Repr

/-- A `requests` response: status code and body text (`response.json()`
is `json.loads` of `text`). -/
structure HttpResponse where
  status_code : Nat
  text : String
deriving DecidableEq, Repr

/-- Which concrete `AIProvider` subclass a constructed adapter is. -/
inductive ProviderKind where
  | openai
  | anthropic
  | gemini
  | perplexity
  | xai
  | http
deriving DecidableEq, Repr

/-- A constructed adapter instance.  `base_url` and `headers` are the
`HTTPProvider` constructor parameters; `client_base_url` records the base
URL the OpenAI-compatible SDK client was initialised with
(`XAIProvider._initialize_client`). -/
structure Provider where
  kind : ProviderKind
  api_key : String
  model : String
  base_url : String := ""
  headers : List (String × String) := []
  client_base_url : Option String := none
deriving DecidableEq, Repr

/-! ## OpenAIProvider (`ai_service.py:192-326`) -/

namespace OpenAIProvider

def build_quality_prompt (code_content language : String) : PromptText :=
  ⟨.quality, language, code_content⟩

def build_test_prompt (code_content language : String) : PromptText :=
  ⟨.tests, language, code_content⟩

def build_suggestions_prompt (code_content language : String) : PromptText :=
  ⟨.suggestions, language, code_content⟩

/-- The request `analyze_code_quality` passes to
`chat.completions.create`. -/
def quality_request (p : Provider) (code_content language : String) :
    ChatCompletionsRequest :=
  { model := p.model,
    systemContent := "You are an expert code reviewer and static analysis tool. Provide detailed, actionable feedback on code quality, security, and best practices.",
    userPrompt := build_quality_prompt code_content language,
    response_format_json_object := true,
    temperature := some (3 / 10) }

/-- The request `generate_test_cases` passes to
`chat.completions.create`. -/
def test_request (p : Provider) (code_content language : String) :
    ChatCompletionsRequest :=
  { model := p.model,
    systemContent := "You are an expert test engineer. Generate comprehensive, practical test cases that follow testing best practices and cover edge cases.",
    userPrompt := build_test_prompt code_content language,
    response_format_json_object := true,
    temperature := some (4 / 10) }

/-- The request `get_code_suggestions` passes to
`chat.completions.create`. -/
def suggestions_request (p : Provider) (code_content language : String) :
    ChatCompletionsRequest :=
  { model := p.model,
    systemContent := "You are a senior software architect and code mentor. Provide actionable, specific suggestions for code improvement.",
    userPrompt := build_suggestions_prompt code_content language,
    response_format_json_object := true,
    temperature := some (3 / 10) }

def analyze_code_quality (p : Provider)
    (chat : ChatCompletionsRequest → Except PyErr ChatCompletionsResponse)
    (code_content language : String) : Except PyErr Json := do
  let response ← chat (quality_request p code_content language)
  json_loads response.content

def generate_test_cases (p : Provider)
    (chat : ChatCompletionsRequest → Except PyErr ChatCompletionsResponse)
    (code_content language : String) : Except PyErr Json := do
  let response ← chat (test_request p code_content language)
  json_loads response.content

def get_code_suggestions (p : Provider)
    (chat : ChatCompletionsRequest → Except PyErr ChatCompletionsResponse)
    (code_content language : String) : Except PyErr Json := do
  let response ← chat (suggestions_request p code_content language)
  json_loads response.content

/-- Capability-interface dispatch over the three operations. -/
def run (op : OpKind) (p : Provider)
    (chat : ChatCompletionsRequest → Except PyErr ChatCompletionsResponse)
    (code_content language : String) : Except PyErr Json :=
  match op with
  | .quality => analyze_code_quality p chat code_content language
  | .tests => generate_test_cases p chat code_content language
  | .suggestions => get_code_suggestions p chat code_content language

end OpenAIProvider

/-! ## AnthropicProvider (`ai_service.py:328-459`) -/

namespace AnthropicProvider

def build_quality_prompt (code_content language : String) : PromptText :=
  ⟨.quality, language, code_content⟩

def build_test_prompt (code_content language : String) : PromptText :=
  ⟨.tests, language, code_content⟩

def build_suggestions_prompt (code_content language : String) : PromptText :=
  ⟨.suggestions, language, code_content⟩

/-- The request `analyze_code_quality` passes to `messages.create`;
note that no temperature is supplied. -/
def quality_request (p : Provider) (code_content language : String) :
    AnthropicMessagesRequest :=
  { model := p.model, max_tokens := 4000,
    userPrompt := build_quality_prompt code_content language,
    system := "You are an expert code reviewer and static analysis tool. Provide detailed, actionable feedback on code quality, security, and best practices. Always respond with valid JSON.",
    temperature := none }

/-- The request `generate_test_cases` passes to `messages.create`;
no temperature is supplied. -/
def test_request (p : Provider) (code_content language : String) :
    AnthropicMessagesRequest :=
  { model := p.model, max_tokens := 4000,
    userPrompt := build_test_prompt code_content language,
    system := "You are an expert test engineer. Generate comprehensive, practical test cases that follow testing best practices and cover edge cases. Always respond with valid JSON.",
    temperature := none }

/-- The request `get_code_suggestions` passes to `messages.create`;
no temperature is supplied. -/
def suggestions_request (p : Provider) (code_content language : String) :
    AnthropicMessagesRequest :=
  { model := p.model, max_tokens := 4000,
    userPrompt := build_suggestions_prompt code_content language,
    system := "You are a senior software architect and code mentor. Provide actionable, specific suggestions for code improvement. Always respond with valid JSON.",
    temperature := none }

def analyze_code_quality (p : Provider)
    (messages_create : AnthropicMessagesRequest → Except PyErr AnthropicMessagesResponse)
    (code_content language : String) : Except PyErr Json := do
  let response ← messages_create (quality_request p code_content language)
  json_loads response.content0_text

def generate_test_cases (p : Provider)
    (messages_create : AnthropicMessagesRequest → Except PyErr AnthropicMessagesResponse)
    (code_content language : String) : Except PyErr Json := do
  let response ← messages_create (test_request p code_content language)
  json_loads response.content0_text

def get_code_suggestions (p : Provider)
    (messages_create : AnthropicMessagesRequest → Except PyErr AnthropicMessagesResponse)
    (code_content language : String) : Except PyErr Json := do
  let response ← messages_create (suggestions_request p code_content language)
  json_loads response.content0_text

/-- Capability-interface dispatch over the three operations. -/
def run (op : OpKind) (p : Provider)
    (messages_create : AnthropicMessagesRequest → Except PyErr AnthropicMessagesResponse)
    (code_content language : String) : Except PyErr Json :=
  match op with
  | .quality => analyze_code_quality p messages_create code_content language
  | .tests => generate_test_cases p messages_create code_content language
  | .suggestions => get_code_suggestions p messages_create code_content language

end AnthropicProvider

/-! ## GeminiProvider (`ai_service.py:461-592`) -/

namespace GeminiProvider

def build_quality_prompt (code_content language : String) : PromptText :=
  ⟨.quality, language, code_content⟩

def build_test_prompt (code_content language : String) : PromptText :=
  ⟨.tests, language, code_content⟩

def build_suggestions_prompt (code_content language : String) : PromptText :=
  ⟨.suggestions, language, code_content⟩

def quality_request (p : Provider) (code_content language : String) :
    GeminiGenerateRequest :=
  { model := p.model,
    contents := build_quality_prompt code_content language,
    response_mime_type := "application/json",
    temperature := some (3 / 10) }

def test_request (p : Provider) (code_content language : String) :
    GeminiGenerateRequest :=
  { model := p.model,
    contents := build_test_prompt code_content language,
    response_mime_type := "application/json",
    temperature := some (4 / 10) }

def suggestions_request (p : Provider) (code_content language : String) :
    GeminiGenerateRequest :=
  { model := p.model,
    contents := build_suggestions_prompt code_content language,
    response_mime_type := "application/json",
    temperature := some (3 / 10) }

def analyze_code_quality (p : Provider)
    (generate_content : GeminiGenerateRequest → Except PyErr GeminiGenerateResponse)
    (code_content language : String) : Except PyErr Json := do
  let response ← generate_content (quality_request p code_content language)
  json_loads response.text

def generate_test_cases (p : Provider)
    (generate_content : GeminiGenerateRequest → Except PyErr GeminiGenerateResponse)
    (code_content language : String) : Except PyErr Json := do
  let response ← generate_content (test_request p code_content language)
  json_loads response.text

def get_code_suggestions (p : Provider)
    (generate_content : GeminiGenerateRequest → Except PyErr GeminiGenerateResponse)
    (code_content language : String) : Except PyErr Json := do
  let response ← generate_content (suggestions_request p code_content language)
  json_loads response.text

/-- Capability-interface dispatch over the three operations. -/
def run (op : OpKind) (p : Provider)
    (generate_content : GeminiGenerateRequest → Except PyErr GeminiGenerateResponse)
    (code_content language : String) : Except PyErr Json :=
  match op with
  | .quality => analyze_code_quality p generate_content code_content language
  | .tests => generate_test_cases p generate_content code_content language
  | .suggestions => get_code_suggestions p generate_content code_content language

end GeminiProvider

/-! ## PerplexityProvider (`ai_service.py:594-723`) -/

namespace PerplexityProvider

def build_quality_prompt (code_content language : String) : PromptText :=
  ⟨.quality, language, code_content⟩

def build_test_prompt (code_content language : String) : PromptText :=
  ⟨.tests, language, code_content⟩

def build_suggestions_prompt (code_content language : String) : PromptText :=
  ⟨.suggestions, language, code_content⟩

/-- The `data` dict `_make_request` posts: temperature is 0.3 for every
operation; `stream` is disabled. -/
def request_data (p : Provider) (prompt : PromptText) (system_message : String) :
    HttpPostRequest :=
  { url := "https://api.perplexity.ai/chat/completions",
    api_key := p.api_key,
    model := p.model,
    system_message := system_message,
    user_content := prompt,
    temperature := some (3 / 10),
    stream := some false,
    max_tokens := none,
    timeout := none,
    extra_headers := [] }

/-- `_make_request`: on a 200 response, `response.json()` and index
`['choices'][0]['message']['content']`, then `json.loads` the content;
any other status raises `Exception(f"Perplexity API error: {status} -
{text}")`. -/
def make_request (p : Provider)
    (post : HttpPostRequest → Except PyErr HttpResponse)
    (prompt : PromptText) (system_message : String) : Except PyErr Json := do
  let response ← post (request_data p prompt system_message)
  if response.status_code = 200 then do
    let result ← json_loads response.text
    let choices ← result.getKey "choices"
    let choice0 ← choices.getIdx 0
    let message ← choice0.getKey "message"
    let contentJson ← message.getKey "content"
    match contentJson with
    | .str content => json_loads content
    | _ => .error (.typeError "the JSON object must be str, bytes or bytearray")
  else
    .error (.genericException
      ("Perplexity API error: " ++ toString response.status_code ++ " - "
        ++ response.text))

def analyze_code_quality (p : Provider)
    (post : HttpPostRequest → Except PyErr HttpResponse)
    (code_content language : String) : Except PyErr Json :=
  make_request p post (build_quality_prompt code_content language)
    "You are an expert code reviewer and static analysis tool. Provide detailed, actionable feedback on code quality, security, and best practices. Always respond with valid JSON."

def generate_test_cases (p : Provider)
    (post : HttpPostRequest → Except PyErr HttpResponse)
    (code_content language : String) : Except PyErr Json :=
  make_request p post (build_test_prompt code_content language)
    "You are an expert test engineer. Generate comprehensive, practical test cases that follow testing best practices and cover edge cases. Always respond with valid JSON."

def get_code_suggestions (p : Provider)
    (post : HttpPostRequest → Except PyErr HttpResponse)
    (code_content language : String) : Except PyErr Json :=
  make_request p post (build_suggestions_prompt code_content language)
    "You are a senior software architect and code mentor. Provide actionable, specific suggestions for code improvement. Always respond with valid JSON."

/-- Capability-interface dispatch over the three operations. -/
def run (op : OpKind) (p : Provider)
    (post : HttpPostRequest → Except PyErr HttpResponse)
    (code_content language : String) : Except PyErr Json :=
  match op with
  | .quality => analyze_code_quality p post code_content language
  | .tests => generate_test_cases p post code_content language
  | .suggestions => get_code_suggestions p post code_content language

end PerplexityProvider

/-! ## XAIProvider (`ai_service.py:725-862`) — OpenAI-compatible API -/

namespace XAIProvider

def build_quality_prompt (code_content language : String) : PromptText :=
  ⟨.quality, language, code_content⟩

def build_test_prompt (code_content language : String) : PromptText :=
  ⟨.tests, language, code_content⟩

def build_suggestions_prompt (code_content language : String) : PromptText :=
  ⟨.suggestions, language, code_content⟩

def quality_request (p : Provider) (code_content language : String) :
    ChatCompletionsRequest :=
  { model := p.model,
    systemContent := "You are an expert code reviewer and static analysis tool. Provide detailed, actionable feedback on code quality, security, and best practices.",
    userPrompt := build_quality_prompt code_content language,
    response_format_json_object := true,
    temperature := some (3 / 10) }

def test_request (p : Provider) (code_content language : String) :
    ChatCompletionsRequest :=
  { model := p.model,
    systemContent := "You are an expert test engineer. Generate comprehensive, practical test cases that follow testing best practices and cover edge cases.",
    userPrompt := build_test_prompt code_content language,
    response_format_json_object := true,
    temperature := some (4 / 10) }

def suggestions_request (p : Provider) (code_content language : String) :
    ChatCompletionsRequest :=
  { model := p.model,
    systemContent := "You are a senior software architect and code mentor. Provide actionable, specific suggestions for code improvement.",
    userPrompt := build_suggestions_prompt code_content language,
    response_format_json_object := true,
    temperature := some (3 / 10) }

def analyze_code_quality (p : Provider)
    (chat : ChatCompletionsRequest → Except PyErr ChatCompletionsResponse)
    (code_content language : String) : Except PyErr Json := do
  let response ← chat (quality_request p code_content language)
  json_loads response.content

def generate_test_cases (p : Provider)
    (chat : ChatCompletionsRequest → Except PyErr ChatCompletionsResponse)
    (code_content language : String) : Except PyErr Json := do
  let response ← chat (test_request p code_content language)
  json_loads response.content

def get_code_suggestions (p : Provider)
    (chat : ChatCompletionsRequest → Except PyErr ChatCompletionsResponse)
    (code_content language : String) : Except PyErr Json := do
  let response ← chat (suggestions_request p code_content language)
  json_loads response.content

/-- Capability-interface dispatch over the three operations. -/
def run (op : OpKind) (p : Provider)
    (chat : ChatCompletionsRequest → Except PyErr ChatCompletionsResponse)
    (code_content language : String) : Except PyErr Json :=
  match op with
  | .quality => analyze_code_quality p chat code_content language
  | .tests => generate_test_cases p chat code_content language
  | .suggestions => get_code_suggestions p chat code_content language

end XAIProvider

/-! ## HTTPProvider (`ai_service.py:864-1000`) — generic HTTP adapter -/

namespace HTTPProvider

def build_quality_prompt (code_content language : String) : PromptText :=
  ⟨.quality, language, code_content⟩

def build_test_prompt (code_content language : String) : PromptText :=
  ⟨.tests, language, code_content⟩

def build_suggestions_prompt (code_content language : String) : PromptText :=
  ⟨.suggestions, language, code_content⟩

/-- The `data` dict `_make_request` posts: temperature is 0.3 for every
operation; `max_tokens` 4000; a 60-second timeout on the post. -/
def request_data (p : Provider) (prompt : PromptText) (system_message : String) :
    HttpPostRequest :=
  { url := p.base_url ++ "/chat/completions",
    api_key := p.api_key,
    model := p.model,
    system_message := system_message,
    user_content := prompt,
    temperature := some (3 / 10),
    stream := none,
    max_tokens := some 4000,
    timeout := some 60,
    extra_headers := p.headers }

/-- `_make_request`: on a 200 response, decode the envelope and try
`json.loads` on the content field; a `JSONDecodeError` there is caught
and replaced by the degraded dict
`{"error": "Invalid JSON response", "content": content}`.  Any other
status raises `Exception(f"API error: {status} - {text}")`. -/
def make_request (p : Provider)
    (post : HttpPostRequest → Except PyErr HttpResponse)
    (prompt : PromptText) (system_message : String) : Except PyErr Json := do
  let response ← post (request_data p prompt system_message)
  if response.status_code = 200 then do
    let result ← json_loads response.text
    let choices ← result.getKey "choices"
    let choice0 ← choices.getIdx 0
    let message ← choice0.getKey "message"
    let contentJson ← message.getKey "content"
    match contentJson with
    | .str content =>
      match json_loads content with
      | .ok j => .ok j
      | .error _ =>
        .ok (Json.obj
          [("error", .str "Invalid JSON response"), ("content", .str content)])
    | _ => .error (.typeError "the JSON object must be str, bytes or bytearray")
  else
    .error (.genericException
      ("API error: " ++ toString response.status_code ++ " - " ++ response.text))

def analyze_code_quality (p : Provider)
    (post : HttpPostRequest → Except PyErr HttpResponse)
    (code_content language : String) : Except PyErr Json :=
  make_request p post (build_quality_prompt code_content language)
    "You are an expert code reviewer. Analyze the code and provide detailed feedback in JSON format."

def generate_test_cases (p : Provider)
    (post : HttpPostRequest → Except PyErr HttpResponse)
    (code_content language : String) : Except PyErr Json :=
  make_request p post (build_test_prompt code_content language)
    "You are a test engineer. Generate comprehensive test cases in JSON format."

def get_code_suggestions (p : Provider)
    (post : HttpPostRequest → Except PyErr HttpResponse)
    (code_content language : String) : Except PyErr Json :=
  make_request p post (build_suggestions_prompt code_content language)
    "You are a senior developer. Provide code improvement suggestions in JSON format."

/-- Capability-interface dispatch over the three operations. -/
def run (op : OpKind) (p : Provider)
    (post : HttpPostRequest → Except PyErr HttpResponse)
    (code_content language : String) : Except PyErr Json :=
  match op with
  | .quality => analyze_code_quality p post code_content language
  | .tests => generate_test_cases p post code_content language
  | .suggestions => get_code_suggestions p post code_content language

end HTTPProvider

/-! ## Factory (`create_ai_provider`, `ai_service.py:1003-1025`) -/

/-- `create_ai_provider(provider_name, api_key, model)`.  Construction is
a pure function of its three string arguments — it takes no transport, so
no network call can occur during construction.  An unknown identifier
raises `ValueError(f"Unsupported AI provider: {provider_name}")`. -/
def create_ai_provider (provider_name api_key model : String) :
    Except PyErr Provider :=
  if provider_name = "openai" then
    .ok { kind := .openai, api_key := api_key, model := model }
  else if provider_name = "anthropic" then
    .ok { kind := .anthropic, api_key := api_key, model := model }
  else if provider_name = "gemini" then
    .ok { kind := .gemini, api_key := api_key, model := model }
  else if provider_name = "perplexity" then
    .ok { kind := .perplexity, api_key := api_key, model := model }
  else if provider_name = "xai" then
    .ok { kind := .xai, api_key := api_key, model := model,
          client_base_url := some "https://api.x.ai/v1" }
  else if provider_name = "cohere" then
    .ok { kind := .http, api_key := api_key, model := model,
          base_url := "https://api.cohere.ai/v1" }
  else if provider_name = "mistral" then
    .ok { kind := .http, api_key := api_key, model := model,
          base_url := "https://api.mistral.ai/v1" }
  else if provider_name = "huggingface" then
    .ok { kind := .http, api_key := api_key, model := model,
          base_url := "https://api-inference.huggingface.co/models" }
  else if provider_name = "together" then
    .ok { kind := .http, api_key := api_key, model := model,
          base_url := "https://api.together.xyz/v1" }
  else
    .error (.valueError ("Unsupported AI provider: " ++ provider_name))

/-- All family transports bundled, for dispatching an operation on a
constructed adapter of any kind. -/
structure Transports where
  chat : ChatCompletionsRequest → Except PyErr ChatCompletionsResponse
  anthropicMessages : AnthropicMessagesRequest → Except PyErr AnthropicMessagesResponse
  geminiGenerate : GeminiGenerateRequest → Except PyErr GeminiGenerateResponse
  post : HttpPostRequest → Except PyErr HttpResponse

/-- The capability interface: every constructed adapter supports all
three operations, routed to its family's implementation. -/
def Provider.call (p : Provider) (t : Transports) (op : OpKind)
    (code_content language : String) : Except PyErr Json :=
  match p.kind with
  | .openai => OpenAIProvider.run op p t.chat code_content language
  | .anthropic => AnthropicProvider.run op p t.anthropicMessages code_content language
  | .gemini => GeminiProvider.run op p t.geminiGenerate code_content language
  | .perplexity => PerplexityProvider.run op p t.post code_content language
  | .xai => XAIProvider.run op p t.chat code_content language
  | .http => HTTPProvider.run op p t.post code_content language

/-! ## Credential validation (`validate_api_key`, `ai_service.py:1031-1100`) -/

/-- The probe calls `validate_api_key` can issue, with the exact
parameters built in the source.  The outcome of a probe (including
`raise_for_status` on a non-2xx reply, connection errors and SDK
exceptions) is decided by the external world, modelled as a function
`ProbeAction → Except PyErr Unit`. -/
inductive ProbeAction where
  | openaiModelsList (api_key : String) (base_url : Option String)
  | anthropicMessagesCreate (api_key model : String) (max_tokens : Nat)
      (content : String)
  | geminiGenerateContent (api_key model contents : String)
  | httpPost (url api_key : String) (body : Json)

/-- The probe body posted for the Perplexity branch. -/
def perplexityProbeBody : Json :=
  .obj [("model", .str "llama-3.1-sonar-small-128k-online"),
        ("messages", .arr [.obj [("role", .str "user"),
                                 ("content", .str "Test")]]),
        ("max_tokens", .num 1)]

/-- The probe body posted for the Cohere branch. -/
def cohereProbeBody : Json :=
  .obj [("model", .str "command"), ("message", .str "Test"),
        ("max_tokens", .num 1)]

/-- The probe body posted for the Mistral branch. -/
def mistralProbeBody : Json :=
  .obj [("model", .str "mistral-small-latest"),
        ("messages", .arr [.obj [("role", .str "user"),
                                 ("content", .str "Test")]]),
        ("max_tokens", .num 1)]

/-- The probe body posted for the HuggingFace branch. -/
def huggingfaceProbeBody : Json :=
  .obj [("inputs", .str "Test")]

/-- The probe body posted for the Together branch. -/
def togetherProbeBody : Json :=
  .obj [("model", .str "meta-llama/Llama-2-7b-chat-hf"),
        ("messages", .arr [.obj [("role", .str "user"),
                                 ("content", .str "Test")]]),
        ("max_tokens", .num 1)]

/-- `validate_api_key(provider, api_key)`: one minimal probe per known
backend inside a `try`, reduced to a boolean; the bare
`except Exception: return False` catches every failure, and an unknown
identifier returns `False` without probing. -/
def validate_api_key (world : ProbeAction → Except PyErr Unit)
    (provider api_key : String) : Bool :=
  let attempt : Except PyErr Bool :=
    if provider = "openai" then do
      world (.openaiModelsList api_key none); pure true
    else if provider = "anthropic" then do
      world (.anthropicMessagesCreate api_key "claude-3-haiku-20240307" 1 "Hi")
      pure true
    else if provider = "gemini" then do
      world (.geminiGenerateContent api_key "gemini-1.5-flash" "Test")
      pure true
    else if provider = "perplexity" then do
      world (.httpPost "https://api.perplexity.ai/chat/completions" api_key
        perplexityProbeBody)
      pure true
    else if provider = "xai" then do
      world (.openaiModelsList api_key (some "https://api.x.ai/v1")); pure true
    else if provider = "cohere" then do
      world (.httpPost "https://api.cohere.ai/v1/generate" api_key
        cohereProbeBody)
      pure true
    else if provider = "mistral" then do
      world (.httpPost "https://api.mistral.ai/v1/chat/completions" api_key
        mistralProbeBody)
      pure true
    else if provider = "huggingface" then do
      world (.httpPost
        "https://api-inference.huggingface.co/models/microsoft/DialoGPT-large"
        api_key huggingfaceProbeBody)
      pure true
    else if provider = "together" then do
      world (.httpPost "https://api.together.xyz/v1/chat/completions" api_key
        togetherProbeBody)
      pure true
    else
      pure false
  match attempt with
  | .ok b => b
  | .error _ => false

/-! ## Credential vault (`routes.py:41-58`) -/

/-- `encrypt_api_keys(api_keys_dict)`.  The Fernet primitive is external
(`cryptography` library): `enc` models `Fernet(key).encrypt` at string
level (`.encode()`/`.decode()` are identities here).  `env_key` models
`os.environ.get('ENCRYPTION_KEY', ...)`; `fresh_key` is the
`Fernet.generate_key()` value drawn by THIS call — the source evaluates
`Fernet.generate_key()` anew inside every call, so distinct calls draw
independent fresh keys, used only when the environment variable is
unset. -/
def encrypt_api_keys (enc : String → String → String)
    (env_key : Option String) (fresh_key : String)
    (api_keys_dict : List (String × String)) : Option String :=
  if api_keys_dict = [] then none
  else
    let key := env_key.getD fresh_key
    some (enc key (dumps_str_map api_keys_dict))

/-- `decrypt_api_keys(encrypted_keys)`.  `dec` models
`Fernet(key).decrypt`, `none` standing for a raised `InvalidToken`;
the bare `except` converts every decryption or JSON failure to `{}`.
An absent (`None`) or empty blob short-circuits to `{}` before any key
material is touched. -/
def decrypt_api_keys (dec : String → String → Option String)
    (env_key : Option String) (fresh_key : String)
    (encrypted_keys : Option String) : Json :=
  match encrypted_keys with
  | none => Json.obj []
  | some blob =>
    if blob = "" then Json.obj []
    else
      let key := env_key.getD fresh_key
      match dec key blob with
      | none => Json.obj []
      | some plaintext =>
        match parseJson plaintext with
        | some j => j
        | none => Json.obj []

/-! ## Shared helper lemmas and values -/

lemma except_bind_ok {α β : Type} (a : α) (f : α → Except PyErr β) :
    (Except.ok a : Except PyErr α) >>= f = f a := rfl

lemma except_bind_error {α β : Type} (e : PyErr) (f : α → Except PyErr β) :
    (Except.error e : Except PyErr α) >>= f = .error e := rfl

/-- The minimal chat-completions reply envelope the requests-based
adapters index into: `{"choices": [{"message": {"content": c}}]}`. -/
def chatEnvelope (content : String) : Json :=
  .obj [("choices", .arr [.obj [("message",
    .obj [("content", .str content)])]])]

/-- A result is the spec's typed `TransportError` (never produced by the
embedded code; used to state claim C4 falsifiably). -/
def isTransportFailure : Except PyErr Json → Bool
  | .error (.transportError _ _) => true
  | _ => false

lemma detect_language_of_lookup (filename content lang : String)
    (h : extension_map.lookup
      (String.mk (splitext_ext (filename.data.map Char.toLower))) = some lang)
    (hlang : lang ≠ "text") :
    detect_language filename content = lang := by
  simp [detect_language, h, hlang]

/-! ## Claim C1 — range validation of decoded quality reports -/

/-- Claim C1 counterexample: the OpenAI adapter's quality operation, given
a reply that decodes to `{"quality_score": 150}`, returns it to the caller
as a successful result — 150 lies outside [0,100] and nothing rejects it
at decode time; `routes.analyze_file` would store 150 via
`.get('quality_score', 0)`. -/
theorem c1_range_counterexample :
    OpenAIProvider.analyze_code_quality
      { kind := .openai, api_key := "sk-x", model := "gpt-4o" }
      (fun _ => .ok { content := "\x7b\"quality_score\": 150\x7d" })
      "print(1)" "python"
      = .ok (Json.obj [("quality_score", Json.num 150)])
    ∧ Json.dictGet (Json.obj [("quality_score", Json.num 150)])
        "quality_score" (Json.num 0) = Json.num 150
    ∧ ¬((150 : Int) ≤ 100) :=
  ⟨rfl, rfl, by decide⟩

/-- Claim C1 as amended: no adapter operation performs any range
validation on a decoded QualityReport — whatever JSON object the reply
decodes to (in particular one whose `quality_score` or metrics lie
outside [0,100]) is returned to the caller unchanged. -/
theorem c1_no_range_validation :
    (∀ (p : Provider) (code language : String)
        (resp : ChatCompletionsResponse) (j : Json),
      parseJson resp.content = some j →
      OpenAIProvider.analyze_code_quality p (fun _ => .ok resp) code language
        = .ok j) ∧
    (∀ (p : Provider) (code language : String)
        (resp : ChatCompletionsResponse) (j : Json),
      parseJson resp.content = some j →
      XAIProvider.analyze_code_quality p (fun _ => .ok resp) code language
        = .ok j) ∧
    (∀ (p : Provider) (code language : String)
        (resp : AnthropicMessagesResponse) (j : Json),
      parseJson resp.content0_text = some j →
      AnthropicProvider.analyze_code_quality p (fun _ => .ok resp) code language
        = .ok j) ∧
    (∀ (p : Provider) (code language : String)
        (resp : GeminiGenerateResponse) (j : Json),
      parseJson resp.text = some j →
      GeminiProvider.analyze_code_quality p (fun _ => .ok resp) code language
        = .ok j) ∧
    (∀ (p : Provider) (code language : String) (resp : HttpResponse)
        (content : String) (j : Json),
      resp.status_code = 200 →
      parseJson resp.text = some (chatEnvelope content) →
      parseJson content = some j →
      PerplexityProvider.analyze_code_quality p (fun _ => .ok resp)
        code language = .ok j) ∧
    (∀ (p : Provider) (code language : String) (resp : HttpResponse)
        (content : String) (j : Json),
      resp.status_code = 200 →
      parseJson resp.text = some (chatEnvelope content) →
      parseJson content = some j →
      HTTPProvider.analyze_code_quality p (fun _ => .ok resp)
        code language = .ok j) := by
  refine ⟨?_, ?_, ?_, ?_, ?_, ?_⟩
  · intro p code language resp j h
    simp [OpenAIProvider.analyze_code_quality, json_loads, h, except_bind_ok]
  · intro p code language resp j h
    simp [XAIProvider.analyze_code_quality, json_loads, h, except_bind_ok]
  · intro p code language resp j h
    simp [AnthropicProvider.analyze_code_quality, json_loads, h,
      except_bind_ok]
  · intro p code language resp j h
    simp [GeminiProvider.analyze_code_quality, json_loads, h, except_bind_ok]
  · intro p code language resp content j hs ht hc
    simp [PerplexityProvider.analyze_code_quality,
      PerplexityProvider.make_request, json_loads, hs, ht, hc,
      except_bind_ok, chatEnvelope, Json.getKey, Json.getIdx, List.lookup]
  · intro p code language resp content j hs ht hc
    simp [HTTPProvider.analyze_code_quality, HTTPProvider.make_request,
      json_loads, hs, ht, hc, except_bind_ok, chatEnvelope, Json.getKey,
      Json.getIdx, List.lookup]

/-- Claim C1 witness: the amended theorem applied at a concrete in-range
reply. -/
theorem c1_no_range_validation_witness :
    OpenAIProvider.analyze_code_quality
      { kind := .openai, api_key := "sk-y", model := "gpt-4o-mini" }
      (fun _ => .ok { content := "\x7b\"quality_score\": 97\x7d" })
      "x = 1" "python"
      = .ok (Json.obj [("quality_score", Json.num 97)]) :=
  c1_no_range_validation.1 _ "x = 1" "python"
    { content := "\x7b\"quality_score\": 97\x7d" }
    (Json.obj [("quality_score", Json.num 97)]) rfl

/-! ## Claim C2 — per-operation temperatures -/

/-- Claim C2 counterexample: the Perplexity adapter's test-generation
operation posts temperature 0.3 (its shared `_make_request` hard-codes
0.3 for every operation), not the claimed 0.4, and the Anthropic
adapter's test-generation call carries no temperature at all. -/
theorem c2_temperature_counterexample :
    (PerplexityProvider.request_data
        { kind := .perplexity, api_key := "pk",
          model := "llama-3.1-8b-instruct" }
        (PerplexityProvider.build_test_prompt "print(1)" "python")
        "You are an expert test engineer. Generate comprehensive, practical test cases that follow testing best practices and cover edge cases. Always respond with valid JSON.").temperature
      = some ((3 : ℚ) / 10)
    ∧ (AnthropicProvider.test_request
        { kind := .anthropic, api_key := "ak",
          model := "claude-3-opus-20240229" }
        "print(1)" "python").temperature = none
    ∧ ((3 : ℚ) / 10) ≠ (4 : ℚ) / 10 :=
  ⟨rfl, rfl, by norm_num⟩

/-- Claim C2 as amended: the OpenAI, xAI and Gemini adapters request
temperature 0.3 for quality analysis and suggestions and 0.4 for test
generation; the Anthropic adapter sets no temperature for any operation;
the Perplexity and generic HTTP adapters request 0.3 for all three
operations, including test generation. -/
theorem c2_temperatures (p : Provider) (code language : String)
    (prompt : PromptText) (sys : String) :
    (OpenAIProvider.quality_request p code language).temperature
      = some (3 / 10) ∧
    (OpenAIProvider.test_request p code language).temperature
      = some (4 / 10) ∧
    (OpenAIProvider.suggestions_request p code language).temperature
      = some (3 / 10) ∧
    (XAIProvider.quality_request p code language).temperature
      = some (3 / 10) ∧
    (XAIProvider.test_request p code language).temperature
      = some (4 / 10) ∧
    (XAIProvider.suggestions_request p code language).temperature
      = some (3 / 10) ∧
    (GeminiProvider.quality_request p code language).temperature
      = some (3 / 10) ∧
    (GeminiProvider.test_request p code language).temperature
      = some (4 / 10) ∧
    (GeminiProvider.suggestions_request p code language).temperature
      = some (3 / 10) ∧
    (AnthropicProvider.quality_request p code language).temperature = none ∧
    (AnthropicProvider.test_request p code language).temperature = none ∧
    (AnthropicProvider.suggestions_request p code language).temperature
      = none ∧
    (PerplexityProvider.request_data p prompt sys).temperature
      = some (3 / 10) ∧
    (HTTPProvider.request_data p prompt sys).temperature = some (3 / 10) :=
  ⟨rfl, rfl, rfl, rfl, rfl, rfl, rfl, rfl, rfl, rfl, rfl, rfl, rfl, rfl⟩

/-! ## Claim C3 — non-JSON reply bodies -/

/-- Claim C3: for every adapter and every operation, a reply whose text is
not valid JSON makes the operation fail with `json.JSONDecodeError` — the
typed decode failure carrying the raw text (the code's realisation of
`MalformedResponse`) — except the generic HTTP adapter, which instead
returns the degraded result
`{"error": "Invalid JSON response", "content": rawText}` without
failing. -/
theorem c3_malformed_reply :
    (∀ (op : OpKind) (p : Provider) (code language : String)
        (resp : ChatCompletionsResponse),
      parseJson resp.content = none →
      OpenAIProvider.run op p (fun _ => .ok resp) code language
        = .error (.jsonDecodeError resp.content)) ∧
    (∀ (op : OpKind) (p : Provider) (code language : String)
        (resp : ChatCompletionsResponse),
      parseJson resp.content = none →
      XAIProvider.run op p (fun _ => .ok resp) code language
        = .error (.jsonDecodeError resp.content)) ∧
    (∀ (op : OpKind) (p : Provider) (code language : String)
        (resp : AnthropicMessagesResponse),
      parseJson resp.content0_text = none →
      AnthropicProvider.run op p (fun _ => .ok resp) code language
        = .error (.jsonDecodeError resp.content0_text)) ∧
    (∀ (op : OpKind) (p : Provider) (code language : String)
        (resp : GeminiGenerateResponse),
      parseJson resp.text = none →
      GeminiProvider.run op p (fun _ => .ok resp) code language
        = .error (.jsonDecodeError resp.text)) ∧
    (∀ (op : OpKind) (p : Provider) (code language : String)
        (resp : HttpResponse) (content : String),
      resp.status_code = 200 →
      parseJson resp.text = some (chatEnvelope content) →
      parseJson content = none →
      PerplexityProvider.run op p (fun _ => .ok resp) code language
        = .error (.jsonDecodeError content)) ∧
    (∀ (op : OpKind) (p : Provider) (code language : String)
        (resp : HttpResponse) (content : String),
      resp.status_code = 200 →
      parseJson resp.text = some (chatEnvelope content) →
      parseJson content = none →
      HTTPProvider.run op p (fun _ => .ok resp) code language
        = .ok (Json.obj [("error", .str "Invalid JSON response"),
                         ("content", .str content)])) := by
  refine ⟨?_, ?_, ?_, ?_, ?_, ?_⟩
  · intro op p code language resp h
    cases op <;>
      simp [OpenAIProvider.run, OpenAIProvider.analyze_code_quality,
        OpenAIProvider.generate_test_cases,
        OpenAIProvider.get_code_suggestions, json_loads, h, except_bind_ok]
  · intro op p code language resp h
    cases op <;>
      simp [XAIProvider.run, XAIProvider.analyze_code_quality,
        XAIProvider.generate_test_cases, XAIProvider.get_code_suggestions,
        json_loads, h, except_bind_ok]
  · intro op p code language resp h
    cases op <;>
      simp [AnthropicProvider.run, AnthropicProvider.analyze_code_quality,
        AnthropicProvider.generate_test_cases,
        AnthropicProvider.get_code_suggestions, json_loads, h,
        except_bind_ok]
  · intro op p code language resp h
    cases op <;>
      simp [GeminiProvider.run, GeminiProvider.analyze_code_quality,
        GeminiProvider.generate_test_cases,
        GeminiProvider.get_code_suggestions, json_loads, h, except_bind_ok]
  · intro op p code language resp content hs ht hc
    cases op <;>
      simp [PerplexityProvider.run, PerplexityProvider.analyze_code_quality,
        PerplexityProvider.generate_test_cases,
        PerplexityProvider.get_code_suggestions,
        PerplexityProvider.make_request, json_loads, hs, ht, hc,
        except_bind_ok, chatEnvelope, Json.getKey, Json.getIdx, List.lookup]
  · intro op p code language resp content hs ht hc
    cases op <;>
      simp [HTTPProvider.run, HTTPProvider.analyze_code_quality,
        HTTPProvider.generate_test_cases, HTTPProvider.get_code_suggestions,
        HTTPProvider.make_request, json_loads, hs, ht, hc, except_bind_ok,
        chatEnvelope, Json.getKey, Json.getIdx, List.lookup]

/-- Claim C3 witness: a non-JSON reply at a concrete input — the OpenAI
adapter fails with the decode error carrying the raw text, while the
generic HTTP adapter returns the degraded dict. -/
theorem c3_malformed_reply_witness :
    OpenAIProvider.run .quality
      { kind := .openai, api_key := "k", model := "gpt-4o" }
      (fun _ => .ok { content := "I cannot produce JSON." }) "x" "python"
      = .error (.jsonDecodeError "I cannot produce JSON.")
    ∧ HTTPProvider.run .quality
      { kind := .http, api_key := "k", model := "command-r",
        base_url := "https://api.cohere.ai/v1" }
      (fun _ => .ok (HttpResponse.mk 200
        "\x7b\"choices\": [\x7b\"message\": \x7b\"content\": \"plain text reply\"\x7d\x7d]\x7d"))
      "x" "python"
      = .ok (Json.obj [("error", .str "Invalid JSON response"),
                       ("content", .str "plain text reply")]) :=
  ⟨c3_malformed_reply.1 .quality _ "x" "python"
      { content := "I cannot produce JSON." } rfl,
   c3_malformed_reply.2.2.2.2.2 .quality _ "x" "python"
      (HttpResponse.mk 200
        "\x7b\"choices\": [\x7b\"message\": \x7b\"content\": \"plain text reply\"\x7d\x7d]\x7d")
      "plain text reply" rfl rfl rfl⟩

/-! ## Claim C4 — transport failures -/

/-- Claim C4 counterexample: an HTTP 401 during the Perplexity adapter's
quality operation raises a bare generic `Exception` whose message embeds
the status and body — not a typed `TransportError{status, body}`. -/
theorem c4_transport_counterexample :
    PerplexityProvider.analyze_code_quality
      { kind := .perplexity, api_key := "bad-key",
        model := "llama-3.1-sonar-small-128k-online" }
      (fun _ => .ok { status_code := 401, text := "Unauthorized" })
      "print(1)" "python"
      = .error (.genericException "Perplexity API error: 401 - Unauthorized")
    ∧ isTransportFailure (PerplexityProvider.analyze_code_quality
        { kind := .perplexity, api_key := "bad-key",
          model := "llama-3.1-sonar-small-128k-online" }
        (fun _ => .ok { status_code := 401, text := "Unauthorized" })
        "print(1)" "python") = false :=
  ⟨rfl, rfl⟩

/-- Claim C4 as amended: on the requests-based adapters a non-success
status raises a generic `Exception` whose message embeds the status and
body; and for every adapter a failure raised by the single transport call
propagates to the caller unchanged — it is never retried or masked. -/
theorem c4_transport_failures :
    (∀ (op : OpKind) (p : Provider) (code language : String)
        (resp : HttpResponse), resp.status_code ≠ 200 →
      PerplexityProvider.run op p (fun _ => .ok resp) code language
        = .error (.genericException ("Perplexity API error: "
            ++ toString resp.status_code ++ " - " ++ resp.text))) ∧
    (∀ (op : OpKind) (p : Provider) (code language : String)
        (resp : HttpResponse), resp.status_code ≠ 200 →
      HTTPProvider.run op p (fun _ => .ok resp) code language
        = .error (.genericException ("API error: "
            ++ toString resp.status_code ++ " - " ++ resp.text))) ∧
    (∀ (op : OpKind) (p : Provider) (code language : String) (e : PyErr),
      OpenAIProvider.run op p (fun _ => .error e) code language = .error e ∧
      AnthropicProvider.run op p (fun _ => .error e) code language
        = .error e ∧
      GeminiProvider.run op p (fun _ => .error e) code language = .error e ∧
      XAIProvider.run op p (fun _ => .error e) code language = .error e ∧
      PerplexityProvider.run op p (fun _ => .error e) code language
        = .error e ∧
      HTTPProvider.run op p (fun _ => .error e) code language = .error e) := by
  refine ⟨?_, ?_, ?_⟩
  · intro op p code language resp h
    cases op <;>
      simp [PerplexityProvider.run, PerplexityProvider.analyze_code_quality,
        PerplexityProvider.generate_test_cases,
        PerplexityProvider.get_code_suggestions,
        PerplexityProvider.make_request, h, except_bind_ok]
  · intro op p code language resp h
    cases op <;>
      simp [HTTPProvider.run, HTTPProvider.analyze_code_quality,
        HTTPProvider.generate_test_cases, HTTPProvider.get_code_suggestions,
        HTTPProvider.make_request, h, except_bind_ok]
  · intro op p code language e
    cases op <;>
      simp [OpenAIProvider.run, OpenAIProvider.analyze_code_quality,
        OpenAIProvider.generate_test_cases,
        OpenAIProvider.get_code_suggestions,
        AnthropicProvider.run, AnthropicProvider.analyze_code_quality,
        AnthropicProvider.generate_test_cases,
        AnthropicProvider.get_code_suggestions,
        GeminiProvider.run, GeminiProvider.analyze_code_quality,
        GeminiProvider.generate_test_cases,
        GeminiProvider.get_code_suggestions,
        XAIProvider.run, XAIProvider.analyze_code_quality,
        XAIProvider.generate_test_cases, XAIProvider.get_code_suggestions,
        PerplexityProvider.run, PerplexityProvider.analyze_code_quality,
        PerplexityProvider.generate_test_cases,
        PerplexityProvider.get_code_suggestions,
        PerplexityProvider.make_request,
        HTTPProvider.run, HTTPProvider.analyze_code_quality,
        HTTPProvider.generate_test_cases, HTTPProvider.get_code_suggestions,
        HTTPProvider.make_request, except_bind_error]

/-- Claim C4 witness: the amended theorem at a concrete 500 reply and at
a concrete connection error. -/
theorem c4_transport_failures_witness :
    HTTPProvider.run .tests
      { kind := .http, api_key := "k", model := "mistral-small-latest",
        base_url := "https://api.mistral.ai/v1" }
      (fun _ => .ok { status_code := 500, text := "internal error" })
      "x" "python"
      = .error (.genericException "API error: 500 - internal error")
    ∧ GeminiProvider.run .quality
      { kind := .gemini, api_key := "k", model := "gemini-pro" }
      (fun _ => .error (.connectionError "connection refused")) "x" "python"
      = .error (.connectionError "connection refused") :=
  ⟨c4_transport_failures.2.1 .tests _ "x" "python"
      { status_code := 500, text := "internal error" } (by decide),
   (c4_transport_failures.2.2 .quality
      { kind := .gemini, api_key := "k", model := "gemini-pro" }
      "x" "python" (.connectionError "connection refused")).2.2.1⟩

/-! ## Claim C5 — the factory -/

/-- Claim C5: `create_ai_provider` succeeds for every one of the nine
backend identifiers in the provider catalog, returning an adapter (on
which all three operations are total via `Provider.call`); for every
identifier absent from the catalog it fails with
`ValueError("Unsupported AI provider: ...")`.  Construction is a pure
function of its string arguments — it takes no transport, so no network
call can occur during construction. -/
theorem c5_factory (api_key model : String) :
    (∀ name ∈ AI_PROVIDERS.map Prod.fst,
      ∃ p, create_ai_provider name api_key model = .ok p) ∧
    (∀ name, name ∉ AI_PROVIDERS.map Prod.fst →
      create_ai_provider name api_key model
        = .error (.valueError ("Unsupported AI provider: " ++ name))) := by
  constructor
  · intro name h
    simp [AI_PROVIDERS] at h
    rcases h with rfl | rfl | rfl | rfl | rfl | rfl | rfl | rfl | rfl <;>
      exact ⟨_, rfl⟩
  · intro name h
    simp [AI_PROVIDERS] at h
    obtain ⟨h1, h2, h3, h4, h5, h6, h7, h8, h9⟩ := h
    simp [create_ai_provider, h1, h2, h3, h4, h5, h6, h7, h8, h9]

/-- Claim C5 witness: the factory theorem at one catalog identifier and
one unknown identifier. -/
theorem c5_factory_witness :
    (∃ p, create_ai_provider "gemini" "k" "gemini-pro" = .ok p) ∧
    create_ai_provider "not-a-real-backend" "k" "m"
      = .error (.valueError "Unsupported AI provider: not-a-real-backend") :=
  ⟨(c5_factory "k" "gemini-pro").1 "gemini" (by decide),
   (c5_factory "k" "m").2 "not-a-real-backend" (by decide)⟩

/-! ## Claim C6 — credential validation never raises -/

/-- Claim C6: `validate_api_key` is a total boolean function (it cannot
raise — its type is `Bool`, not `Except`): an identifier absent from the
catalog yields `false` without probing, and when the probe world fails
every call (transport or decode failure of any kind), the result is
`false`. -/
theorem c6_validate (world : ProbeAction → Except PyErr Unit)
    (provider api_key : String) (err : PyErr) :
    (provider ∉ AI_PROVIDERS.map Prod.fst →
      validate_api_key world provider api_key = false) ∧
    ((∀ a, world a = .error err) →
      validate_api_key world provider api_key = false) := by
  constructor
  · intro h
    simp [AI_PROVIDERS] at h
    obtain ⟨h1, h2, h3, h4, h5, h6, h7, h8, h9⟩ := h
    simp [validate_api_key, h1, h2, h3, h4, h5, h6, h7, h8, h9, pure,
      Except.pure]
  · intro h
    unfold validate_api_key
    split_ifs <;> simp [h, except_bind_error, pure, Except.pure]

/-- Claim C6 witness: with every probe failing, validation of an
obviously-invalid key returns `false` for a known backend, and an unknown
backend identifier returns `false` even with a succeeding world. -/
theorem c6_validate_witness :
    validate_api_key (fun _ => .error (.connectionError "connection refused"))
      "openai" "obviously-invalid-key" = false
    ∧ validate_api_key (fun _ => .ok ()) "not-a-real-backend" "k" = false :=
  ⟨(c6_validate _ "openai" "obviously-invalid-key"
      (.connectionError "connection refused")).2 (fun _ => rfl),
   (c6_validate _ "not-a-real-backend" "k"
      (.genericException "unused")).1 (by decide)⟩

/-! ## Claim C7 — language detection -/

/-- Claim C7: a filename whose (lower-cased) extension is in the fixed
extension table maps to that extension's language regardless of content;
an unmatched extension yields the ordered content heuristics when the
content is non-empty (python's def-plus-import pattern first, then
javascript, then java, first match winning) and `"text"` otherwise; in
particular `detect_language "sample.py" c = "python"` for every content
`c`, and `detect_language "sample.txt"` of a def-plus-import content is
`"python"`. -/
theorem c7_detect_language :
    (∀ content, detect_language "sample.py" content = "python") ∧
    detect_language "sample.txt" "def run():\n    import os" = "python" ∧
    detect_language "sample.unknownext" "" = "text" ∧
    (∀ filename content ext lang, (ext, lang) ∈ extension_map →
      String.mk (splitext_ext (filename.data.map Char.toLower)) = ext →
      detect_language filename content = lang) ∧
    (∀ filename content,
      extension_map.lookup
        (String.mk (splitext_ext (filename.data.map Char.toLower))) = none →
      content ≠ "" →
      detect_language filename content = contentHeuristic content) ∧
    (∀ filename content,
      extension_map.lookup
        (String.mk (splitext_ext (filename.data.map Char.toLower))) = none →
      content = "" →
      detect_language filename content = "text") ∧
    detect_language "a.weird" "import x\ndef f():\n function var let "
      = "python" := by
  refine ⟨?_, rfl, rfl, ?_, ?_, ?_, rfl⟩
  · intro content
    exact detect_language_of_lookup _ _ _ rfl (by decide)
  · intro filename content ext lang hmem hext
    fin_cases hmem <;>
      exact detect_language_of_lookup _ _ _ (by rw [hext]; decide) (by decide)
  · intro filename content h hc
    simp [detect_language, h, hc]
  · intro filename content h hc
    subst hc
    simp [detect_language, h]

/-- Claim C7 witness: the detection theorem at a concrete upper-cased
matched extension and at a concrete extension-less filename. -/
theorem c7_detect_language_witness :
    detect_language "notes.RS" "def x import y" = "rust"
    ∧ detect_language "Makefile" "" = "text" :=
  ⟨c7_detect_language.2.2.2.1 "notes.RS" "def x import y" ".rs" "rust"
      (by decide) (by decide),
   c7_detect_language.2.2.2.2.2.1 "Makefile" "" (by decide) rfl⟩

/-! ## Claim C8 — vault round-trip with a configured key -/

/-- Claim C8: with `ENCRYPTION_KEY` configured in the environment for
both calls, decrypting an encrypted non-empty credential mapping returns
that mapping.  The Fernet contract (decryption inverts encryption under
the same key) and the `json` round-trip at the serialized mapping are the
external libraries' documented behaviour, taken as hypotheses; the
per-call fresh keys are irrelevant because the environment key is
present. -/
theorem c8_vault_roundtrip (enc : String → String → String)
    (dec : String → String → Option String) (k fresh1 fresh2 : String)
    (m : List (String × String))
    (hm : m ≠ [])
    (hne : enc k (dumps_str_map m) ≠ "")
    (hdec : dec k (enc k (dumps_str_map m)) = some (dumps_str_map m))
    (hjson : parseJson (dumps_str_map m) = some (Json.ofStrMap m)) :
    decrypt_api_keys dec (some k) fresh2
      (encrypt_api_keys enc (some k) fresh1 m) = Json.ofStrMap m := by
  simp [encrypt_api_keys, decrypt_api_keys, hm, hne, hdec, hjson]

/-- Claim C8 witness: the round-trip theorem at a concrete reversible
cipher and the concrete mapping `{"OPENAI_API_KEY": "sk-test"}`. -/
theorem c8_vault_roundtrip_witness :
    decrypt_api_keys
      (fun key s => if (key ++ ":").data.isPrefixOf s.data
        then some (String.mk (s.data.drop (key.length + 1))) else none)
      (some "fernet-key") "f2"
      (encrypt_api_keys (fun key s => key ++ ":" ++ s) (some "fernet-key")
        "f1" [("OPENAI_API_KEY", "sk-test")])
      = Json.ofStrMap [("OPENAI_API_KEY", "sk-test")] :=
  c8_vault_roundtrip _ _ "fernet-key" "f1" "f2"
    [("OPENAI_API_KEY", "sk-test")] (by decide) (by decide) (by decide) rfl

/-! ## Claim C9 — decryption never raises -/

/-- Claim C9: `decrypt_api_keys` is total (it cannot raise — it returns a
value, not an `Except`): an absent blob, an empty blob, a blob the cipher
rejects, and a decrypted plaintext that is not valid JSON all yield the
empty mapping `{}`. -/
theorem c9_decrypt_never_raises (dec : String → String → Option String)
    (env_key : Option String) (fresh_key : String) :
    decrypt_api_keys dec env_key fresh_key none = Json.obj [] ∧
    decrypt_api_keys dec env_key fresh_key (some "") = Json.obj [] ∧
    (∀ blob, blob ≠ "" → dec (env_key.getD fresh_key) blob = none →
      decrypt_api_keys dec env_key fresh_key (some blob) = Json.obj []) ∧
    (∀ blob plaintext, blob ≠ "" →
      dec (env_key.getD fresh_key) blob = some plaintext →
      parseJson plaintext = none →
      decrypt_api_keys dec env_key fresh_key (some blob) = Json.obj []) := by
  refine ⟨rfl, rfl, ?_, ?_⟩
  · intro blob hb hd
    simp [decrypt_api_keys, hb, hd]
  · intro blob plaintext hb hd hp
    simp [decrypt_api_keys, hb, hd, hp]

/-- Claim C9 witness: decryption of a garbage blob the cipher rejects
returns the empty mapping. -/
theorem c9_decrypt_never_raises_witness :
    decrypt_api_keys (fun _ _ => none) (some "fernet-key") "fk"
      (some "garbage-blob") = Json.obj [] :=
  (c9_decrypt_never_raises (fun _ _ => none) (some "fernet-key") "fk").2.2.1
    "garbage-blob" (by decide) rfl

/-! ## Claim C10 — ephemeral keys when ENCRYPTION_KEY is unset -/

/-- Claim C10: with `ENCRYPTION_KEY` unset, `encrypt_api_keys` and
`decrypt_api_keys` each evaluate `Fernet.generate_key()` anew (the
per-call `fresh_key` parameters model this), so the decrypt call uses a
different key from the encrypt call; since Fernet decryption under a
different key fails (hypothesis `hdec`), the round-trip of any non-empty
mapping collapses to the empty mapping `{}` even within one process
run. -/
theorem c10_ephemeral_key_roundtrip (enc : String → String → String)
    (dec : String → String → Option String) (fresh1 fresh2 : String)
    (m : List (String × String))
    (hm : m ≠ [])
    (hne : enc fresh1 (dumps_str_map m) ≠ "")
    (hdec : dec fresh2 (enc fresh1 (dumps_str_map m)) = none) :
    decrypt_api_keys dec none fresh2 (encrypt_api_keys enc none fresh1 m)
      = Json.obj [] := by
  simp [encrypt_api_keys, decrypt_api_keys, hm, hne, hdec]

/-- Claim C10 witness: the ephemeral-key theorem at a concrete
key-binding cipher and two distinct fresh keys. -/
theorem c10_ephemeral_key_roundtrip_witness :
    decrypt_api_keys
      (fun key s => if (key ++ ":").data.isPrefixOf s.data
        then some (String.mk (s.data.drop (key.length + 1))) else none)
      none "key-two"
      (encrypt_api_keys (fun key s => key ++ ":" ++ s) none "key-one"
        [("OPENAI_API_KEY", "sk-test")])
      = Json.obj [] :=
  c10_ephemeral_key_roundtrip _ _ "key-one" "key-two"
    [("OPENAI_API_KEY", "sk-test")] (by decide) (by decide) (by decide)

end CodeSpark
